import Mathlib

/-!
Shallow embedding of the NES CPU emulator core (`src/emulator/cpu.ts`,
first variant: the one with `interpret`/`load`/`reset`/`run` and the
standalone `wrapAroundUint8`/`wrapAroundUint16` helpers).

JavaScript numeric conventions used by that code are modelled explicitly:

* A value read from memory may be `undefined` (an out-of-range index into a
  `Uint8Array` yields `undefined`, not an exception).  Arithmetic on
  `undefined` yields `NaN`, and `NaN % m` is again `NaN`.  We collapse
  `undefined`/`NaN` into `none` of an `Option Nat` (called `JsVal`); a real
  number is `some n`.
* JavaScript bitwise operators (`<<`, `|`, `&`) coerce their operands with
  `ToInt32`, which maps `undefined`/`NaN` to `0`; `jsBitwiseVal` performs
  that coercion.  All numbers that actually flow through the emulator are
  small nonnegative integers, so `Nat` bitwise operations agree with the
  JavaScript ones on `some` values.
* Assigning to an out-of-range index of a `Uint8Array` is a silent no-op,
  and in-range stores coerce the value with `ToUint8` (reduction mod 256).
-/

namespace NES

/-- Model of a JavaScript numeric value as it flows through the emulator:
`some n` is an ordinary (nonnegative integer) number, `none` stands for
`undefined`/`NaN`. -/
abbrev JsVal := Option Nat

/-- Coercion (`ToInt32` style) applied by JavaScript bitwise operators:
`undefined`/`NaN` become `0`. -/
def jsBitwiseVal (v : JsVal) : Nat := v.getD 0

/-- Addition as JavaScript performs it on two values: `undefined`/`NaN` poisons the result. -/
def jsAdd (a b : JsVal) : JsVal :=
  match a, b with
  | some x, some y => some (x + y)
  | _, _ => none

/-- Source function `wrapAroundUint8`: `return num % 0xFF` — the source's
"clamp a number to 8 bits" helper (note: `0xFF` is 255, not 256). -/
def wrapAroundUint8 (num : Nat) : Nat := num % 0xFF

/-- Source function `wrapAroundUint16`: `return num % 0xFFFF` — the source's
"clamp a number to 16 bits" helper (note: `0xFFFF` is 65535, not 65536). -/
def wrapAroundUint16 (num : Nat) : Nat := num % 0xFFFF

/-- Lift of `wrapAroundUint8` to a possibly-`NaN` value (`NaN % m` is `NaN`). -/
def jsWrapUint8 (v : JsVal) : JsVal := v.map wrapAroundUint8

/-- Lift of `wrapAroundUint16` to a possibly-`NaN` value (`NaN % m` is `NaN`). -/
def jsWrapUint16 (v : JsVal) : JsVal := v.map wrapAroundUint16

/-- Coercion (`ToUint8`) applied when storing into a `Uint8Array` cell. -/
def toUint8 (n : Nat) : Nat := n % 256

/-- Allocated length of the memory array,
from `this.memory = new Uint8Array(0xFFFF)`: 0xFFFF = 65535 cells
(indices 0 .. 0xFFFE). -/
def MEMORY_SIZE : Nat := 0xFFFF

/-- Addressing modes, from `enum AddressingMode` in the source. -/
inductive AddressingMode where
  | Immediate
  | ZeroPage
  | ZeroPage_X
  | ZeroPage_Y
  | Absolute
  | Absolute_X
  | Absolute_Y
  | Indirect_X
  | Indirect_Y
deriving DecidableEq

-- `enum Instruction` opcode values from the source.
namespace Instruction

def BRK : Nat := 0x00

def LDA_Immediate : Nat := 0xA9

def INX : Nat := 0xE8

def TAX : Nat := 0xAA

end Instruction

/-- State of the `CPU` class.  Registers hold `JsVal` because an (unreachable in
normal use, but expressible) out-of-range memory read can load `undefined`
into a register; a freshly constructed CPU has every register `some 0`.
Memory is the cell-contents function of the `Uint8Array`; only indices below
`MEMORY_SIZE` are meaningful and reads guard on that bound. -/
structure CPU where
  register_acc : JsVal := some 0
  register_x : JsVal := some 0
  register_y : JsVal := some 0
  status : Nat := 0
  program_counter : Nat := 0
  memory : Nat → Nat := fun _ => 0

/-- Freshly constructed `CPU` (all field initializers). -/
def CPU.new : CPU := {}

/-- Source method `memoryRead(address)`, i.e. `this.memory[address]`.  Reading an index at or
beyond the array length of a `Uint8Array` yields `undefined` (`none`). -/
def CPU.memoryRead (cpu : CPU) (address : Nat) : JsVal :=
  if address < MEMORY_SIZE then some (cpu.memory address) else none

/-- Variant of `memoryRead` at a possibly-`NaN` address (`this.memory[NaN]`
is `undefined`). -/
def CPU.jsMemoryReadAt (cpu : CPU) (address : JsVal) : JsVal :=
  match address with
  | some a => cpu.memoryRead a
  | none => none

/-- Source method `memoryReadUint16(address)`: reads `lo` at `address` and `hi` at
`address + 1` and returns `(hi << 8) | lo`.  The bitwise operators coerce
`undefined` to `0`, so the result is always a number. -/
def CPU.memoryReadUint16 (cpu : CPU) (address : Nat) : Nat :=
  let lo := jsBitwiseVal (cpu.memoryRead address)
  let hi := jsBitwiseVal (cpu.memoryRead (address + 1))
  (hi <<< 8) ||| lo

/-- Source method `memoryWrite(address, data)`: `this.memory[address] = data`.  Stores to
an out-of-range index of a `Uint8Array` are silently dropped; in-range
stores coerce with `ToUint8`. -/
def CPU.memoryWrite (cpu : CPU) (address : Nat) (data : Nat) : CPU :=
  if address < MEMORY_SIZE then
    { cpu with memory := Function.update cpu.memory address (toUint8 data) }
  else cpu

/-- Source method `memoryWriteUint16(address, data)`: little-endian split,
`lo = data & 0xFF` at `address` and `hi = data >> 8` at `address + 1`. -/
def CPU.memoryWriteUint16 (cpu : CPU) (address : Nat) (data : Nat) : CPU :=
  let hi := data >>> 8
  let lo := data &&& 0xFF
  (cpu.memoryWrite address lo).memoryWrite (address + 1) hi

/-- Memory after writing the bytes of `program` into memory starting at `offset`, as
`this.memory.set(program, offset)` does.  (`Uint8Array.prototype.set` throws
a `RangeError` when `offset + program.length` exceeds the array length;
theorems about `load` therefore carry `program.length ≤ 0x7FFF` as a
hypothesis so that the model and the JavaScript agree.) -/
def memSet (m : Nat → Nat) : List Nat → Nat → (Nat → Nat)
  | [], _ => m
  | b :: rest, offset => memSet (Function.update m offset (toUint8 b)) rest (offset + 1)

/-- Source method `load(program)`: copies the program into memory at 0x8000, then writes
the entry address 0x8000 as a little-endian word at the reset vector
0xFFFC. -/
def CPU.load (cpu : CPU) (program : List Nat) : CPU :=
  let cpu := { cpu with memory := memSet cpu.memory program 0x8000 }
  cpu.memoryWriteUint16 0xFFFC 0x8000

/-- Source method `reset()`: zeroes every register and the status byte and sets the
program counter from the reset vector at 0xFFFC. -/
def CPU.reset (cpu : CPU) : CPU :=
  { cpu with
    register_acc := some 0
    register_x := some 0
    register_y := some 0
    status := 0
    program_counter := cpu.memoryReadUint16 0xFFFC }

/-- Source method `getOperandAddress(mode)`.  The TypeScript `default` branch is
unreachable because the enum is closed, so the Lean match is total. -/
def CPU.getOperandAddress (cpu : CPU) (mode : AddressingMode) : JsVal :=
  match mode with
  | .Immediate => some cpu.program_counter
  | .ZeroPage => cpu.memoryRead cpu.program_counter
  | .Absolute => some (cpu.memoryReadUint16 cpu.program_counter)
  | .ZeroPage_X =>
      let specifiedAddress := cpu.memoryRead cpu.program_counter
      let offset := cpu.register_x
      jsWrapUint16 (jsAdd specifiedAddress offset)
  | .ZeroPage_Y =>
      let specifiedAddress := cpu.memoryRead cpu.program_counter
      let offset := cpu.register_y
      jsWrapUint16 (jsAdd specifiedAddress offset)
  | .Absolute_X =>
      let specifiedAddress := some (cpu.memoryReadUint16 cpu.program_counter)
      let offset := cpu.register_x
      jsWrapUint16 (jsAdd specifiedAddress offset)
  | .Absolute_Y =>
      let specifiedAddress := some (cpu.memoryReadUint16 cpu.program_counter)
      let offset := cpu.register_y
      jsWrapUint16 (jsAdd specifiedAddress offset)
  | .Indirect_X =>
      let base := cpu.memoryRead cpu.program_counter
      let ptr := jsWrapUint8 (jsAdd base cpu.register_x)
      let lo := cpu.jsMemoryReadAt ptr
      let hi := cpu.jsMemoryReadAt (jsWrapUint16 (jsAdd ptr (some 1)))
      some ((jsBitwiseVal hi <<< 8) ||| jsBitwiseVal lo)
  | .Indirect_Y =>
      let base := cpu.memoryRead cpu.program_counter
      let lo := cpu.jsMemoryReadAt base
      let hi := cpu.jsMemoryReadAt (jsWrapUint16 (jsAdd base (some 1)))
      let deref_base := (jsBitwiseVal hi <<< 8) ||| jsBitwiseVal lo
      jsWrapUint16 (jsAdd (some deref_base) cpu.register_y)

/-- Source method `updateZeroAndNegativeFlags(result)`: sets/clears bit 1 (Zero) of status
by `result === 0`, then sets/clears bit 7 (Negative) by
`(result & 0b1000_0000) !== 0`.  (`undefined === 0` is false, and bitwise
`&` coerces `undefined` to `0`.) -/
def CPU.updateZeroAndNegativeFlags (cpu : CPU) (result : JsVal) : CPU :=
  let s1 := if result = some 0 then cpu.status ||| 0x02 else cpu.status &&& 0xFD
  let s2 := if jsBitwiseVal result &&& 0x80 ≠ 0 then s1 ||| 0x80 else s1 &&& 0x7F
  { cpu with status := s2 }

/-- Source method `lda(addressingMode)`: resolve the operand address, read the byte there,
store it into the accumulator, update the Zero/Negative flags from the
stored value. -/
def CPU.lda (cpu : CPU) (addressingMode : AddressingMode) : CPU :=
  let address := cpu.getOperandAddress addressingMode
  let param := cpu.jsMemoryReadAt address
  let cpu := { cpu with register_acc := param }
  cpu.updateZeroAndNegativeFlags cpu.register_acc

/-- Outcome of the `run` loop: normal return on BRK, a thrown
`Error('todo!')` for any opcode with no case in the switch (an out-of-range
fetch yields `undefined`, which also matches no case and falls through to
the same `default`), or the artificial fuel bound being reached. -/
inductive RunResult where
  | halted (cpu : CPU)
  | unimplementedOpcode (cpu : CPU)
  | outOfFuel (cpu : CPU)

/-- The CPU state carried by a `RunResult`. -/
def RunResult.cpu : RunResult → CPU
  | .halted c => c
  | .unimplementedOpcode c => c
  | .outOfFuel c => c

/-- Whether the run loop returned normally (BRK). -/
def RunResult.isHalted : RunResult → Bool
  | .halted _ => true
  | _ => false

/-- Source method `run()`: the fetch-decode-execute loop, with explicit fuel for
termination.  Each iteration fetches the opcode byte at the program counter,
advances the program counter by 1, and dispatches exactly as the source's
`switch` does (strict equality against each opcode constant, `default`
throws). -/
def CPU.run : Nat → CPU → RunResult
  | 0, cpu => .outOfFuel cpu
  | fuel + 1, cpu =>
    let opCode := cpu.memoryRead cpu.program_counter
    let cpu := { cpu with program_counter := cpu.program_counter + 1 }
    if opCode = some Instruction.BRK then
      .halted cpu
    else if opCode = some Instruction.LDA_Immediate then
      let cpu := cpu.lda .Immediate
      let cpu := { cpu with program_counter := cpu.program_counter + 1 }
      CPU.run fuel cpu
    else if opCode = some Instruction.INX then
      let cpu := { cpu with register_x := jsWrapUint8 (jsAdd cpu.register_x (some 1)) }
      let cpu := cpu.updateZeroAndNegativeFlags cpu.register_x
      CPU.run fuel cpu
    else if opCode = some Instruction.TAX then
      let cpu := { cpu with register_x := cpu.register_acc }
      let cpu := cpu.updateZeroAndNegativeFlags cpu.register_x
      CPU.run fuel cpu
    else
      .unimplementedOpcode cpu

/-- Source method `interpret(program)`: `load`, `reset`, `run` (with fuel). -/
def CPU.interpret (cpu : CPU) (program : List Nat) (fuel : Nat) : RunResult :=
  CPU.run fuel ((cpu.load program).reset)

/-- Probe state: `register_x` preset to 255 with the program `[INX, BRK]`
at address 0 (memory is otherwise zero, and 0 is the BRK opcode). -/
def inxProbe : CPU :=
  { CPU.new with
    register_x := some 255
    memory := Function.update (fun _ => 0) 0 Instruction.INX }

/-- Probe state: the byte at the program counter is 0xFF and `register_x`
is 255, so a ZeroPage_X resolution adds 255 + 255. -/
def zpxProbe : CPU :=
  { CPU.new with
    register_x := some 255
    memory := Function.update (fun _ => 0) 0 0xFF }

/-- Probe state: the 16-bit little-endian word at the program counter is
0xFF00 (lo byte 0x00 at address 0, hi byte 0xFF at address 1) and
`register_x` is 0xFF, so an Absolute_X resolution adds 0xFF00 + 0xFF. -/
def absxProbe : CPU :=
  { CPU.new with
    register_x := some 0xFF
    memory := Function.update (Function.update (fun _ => 0) 0 0x00) 1 0xFF }

/-- Probe state: the byte at the program counter is 5 (an LDA operand). -/
def ldaProbe : CPU :=
  { CPU.new with memory := Function.update (fun _ => 0) 0 5 }

/-- Probe state: the byte at the program counter is 0xFF, which is not one
of the four implemented opcodes. -/
def badOpcodeProbe : CPU :=
  { CPU.new with memory := Function.update (fun _ => 0) 0 0xFF }

/-- Probe state: a status byte with every reserved bit set (0xB5 =
0b10110101) to exercise flag-update preservation. -/
def statusProbe : CPU :=
  { CPU.new with status := 0xB5 }

/-! ## Helper lemmas -/

theorem testBit_two_of_ne (i : Nat) (h : i ≠ 1) : Nat.testBit 2 i = false := by
  rcases i with _ | _ | n
  · decide
  · exact absurd rfl h
  · exact Nat.testBit_eq_false_of_lt
      (lt_of_lt_of_le (by norm_num : (2:Nat) < 2 ^ 2)
        (Nat.pow_le_pow_right (by norm_num) (by omega)))

theorem testBit_128_of_ne (i : Nat) (h : i ≠ 7) : Nat.testBit 128 i = false := by
  by_cases hi : i < 8
  · interval_cases i <;> first | decide | exact absurd rfl h
  · exact Nat.testBit_eq_false_of_lt
      (lt_of_lt_of_le (by norm_num : (128:Nat) < 2 ^ 8)
        (Nat.pow_le_pow_right (by norm_num) (by omega)))

theorem testBit_253_of_ne (i : Nat) (hi : i < 8) (h : i ≠ 1) :
    Nat.testBit 253 i = true := by
  interval_cases i <;> first | decide | exact absurd rfl h

theorem testBit_127_of_ne (i : Nat) (hi : i < 8) (h : i ≠ 7) :
    Nat.testBit 127 i = true := by
  interval_cases i <;> first | decide | exact absurd rfl h

theorem updateFlags_status_def (cpu : CPU) (result : JsVal) :
    (cpu.updateZeroAndNegativeFlags result).status =
      if jsBitwiseVal result &&& 0x80 ≠ 0 then
        (if result = some 0 then cpu.status ||| 0x02 else cpu.status &&& 0xFD) ||| 0x80
      else
        (if result = some 0 then cpu.status ||| 0x02 else cpu.status &&& 0xFD) &&& 0x7F := rfl

theorem updateFlags_zero_bit (cpu : CPU) (result : JsVal) :
    (cpu.updateZeroAndNegativeFlags result).status.testBit 1 =
      decide (result = some 0) := by
  rw [updateFlags_status_def]
  split_ifs with h7 hz hz <;>
    simp [hz, Nat.testBit_lor, Nat.testBit_land,
      (by decide : Nat.testBit 2 1 = true), (by decide : Nat.testBit 253 1 = false),
      (by decide : Nat.testBit 128 1 = false), (by decide : Nat.testBit 127 1 = true)]

theorem updateFlags_neg_bit (cpu : CPU) (result : JsVal) :
    (cpu.updateZeroAndNegativeFlags result).status.testBit 7 =
      decide (jsBitwiseVal result &&& 0x80 ≠ 0) := by
  rw [updateFlags_status_def]
  split_ifs with h7 <;>
    simp [h7, Nat.testBit_lor, Nat.testBit_land,
      (by decide : Nat.testBit 128 7 = true), (by decide : Nat.testBit 127 7 = false)]

theorem updateFlags_other_bit (cpu : CPU) (result : JsVal) (i : Nat)
    (hi : i < 8) (h1 : i ≠ 1) (h7 : i ≠ 7) :
    (cpu.updateZeroAndNegativeFlags result).status.testBit i =
      cpu.status.testBit i := by
  rw [updateFlags_status_def]
  split_ifs <;>
    simp [Nat.testBit_lor, Nat.testBit_land, testBit_two_of_ne i h1,
      testBit_128_of_ne i h7, testBit_253_of_ne i hi h1, testBit_127_of_ne i hi h7]

theorem lda_immediate_eq (cpu : CPU) (v : Nat)
    (hmem : cpu.memoryRead cpu.program_counter = some v) :
    cpu.lda AddressingMode.Immediate =
      ({ cpu with register_acc := some v }).updateZeroAndNegativeFlags (some v) := by
  simp [CPU.lda, CPU.getOperandAddress, CPU.jsMemoryReadAt, hmem]

theorem updateFlags_register_acc (cpu : CPU) (result : JsVal) :
    (cpu.updateZeroAndNegativeFlags result).register_acc = cpu.register_acc := rfl

/-! ## Claims -/

/-- C1: the claim says executing INX when `register_x` is 255 yields 0, i.e.
`(register_x + 1) mod 256`.  The code computes `wrapAroundUint8 (255 + 1) =
256 % 255 = 1`: running the program `[INX, BRK]` from `register_x = 255`
halts with `register_x = 1`, not 0.  (The spec itself flags the `% 0xFF`
helper as an off-by-one defect in §9.) -/
theorem inx_from_255_yields_one :
    (CPU.run 2 inxProbe).isHalted = true ∧
    (CPU.run 2 inxProbe).cpu.register_x = some 1 ∧
    wrapAroundUint8 (255 + 1) = 1 :=
  ⟨rfl, rfl, rfl⟩

/-- C2: the claim says memory is an array of exactly 65536 cells so every
16-bit address reads a valid byte.  The code allocates `Uint8Array(0xFFFF)`
= 65535 cells, and reading the 16-bit address 0xFFFF yields `undefined`
(`none`), not a byte. -/
theorem memoryRead_at_top_address_is_undefined (cpu : CPU) :
    MEMORY_SIZE = 65535 ∧ cpu.memoryRead 0xFFFF = none :=
  ⟨rfl, rfl⟩

/-- C3: executing LDA (Immediate) with operand byte `v` stores `v` in the
accumulator, sets Zero (status bit 1) iff `v = 0`, and sets Negative
(status bit 7) iff bit 7 of `v` is 1; hence neither is set when `v ≠ 0`
and bit 7 of `v` is 0. -/
theorem lda_immediate_flags (cpu : CPU) (v : Nat) (hv : v < 256)
    (hmem : cpu.memoryRead cpu.program_counter = some v) :
    (cpu.lda AddressingMode.Immediate).register_acc = some v ∧
    ((cpu.lda AddressingMode.Immediate).status.testBit 1 = true ↔ v = 0) ∧
    ((cpu.lda AddressingMode.Immediate).status.testBit 7 = true ↔
      Nat.testBit v 7 = true) := by
  rw [lda_immediate_eq cpu v hmem]
  refine ⟨rfl, ?_, ?_⟩
  · rw [updateFlags_zero_bit]
    simp
  · rw [updateFlags_neg_bit]
    simp only [jsBitwiseVal, Option.getD_some, decide_eq_true_eq]
    rw [(by norm_num : (0x80 : Nat) = 2 ^ 7), Nat.and_two_pow]
    cases h : v.testBit 7 <;> simp [h]

/-- Witness for C3 at the concrete operand 5. -/
theorem lda_immediate_flags_witness :
    (ldaProbe.lda AddressingMode.Immediate).register_acc = some 5 ∧
    ((ldaProbe.lda AddressingMode.Immediate).status.testBit 1 = true ↔ (5:Nat) = 0) ∧
    ((ldaProbe.lda AddressingMode.Immediate).status.testBit 7 = true ↔
      Nat.testBit 5 7 = true) :=
  lda_immediate_flags ldaProbe 5 (by decide) rfl

/-- C4: the claim says a ZeroPage_X resolution wraps `byte + register_x` to
8 bits, staying in [0, 255].  The code wraps with `wrapAroundUint16`
(modulo 65535): with operand byte 0xFF and `register_x = 255` it resolves
to 510, which crosses out of the zero page (the claim would require
`(255 + 255) % 256 = 254`). -/
theorem zeroPageX_crosses_page :
    zpxProbe.getOperandAddress AddressingMode.ZeroPage_X = some 510 ∧
    ¬(510 < 256) ∧ (255 + 255) % 256 = 254 :=
  ⟨rfl, by decide, by decide⟩

/-- C5: the claim says 16-bit address arithmetic wraps modulo 65536.  The
code wraps with `wrapAroundUint16`, i.e. modulo 65535: an Absolute_X
resolution with base 0xFF00 and `register_x = 0xFF` yields 0 where the
claim requires `(0xFF00 + 0xFF) % 65536 = 0xFFFF`. -/
theorem absoluteX_wraps_mod_65535 :
    absxProbe.getOperandAddress AddressingMode.Absolute_X = some 0 ∧
    (0xFF00 + 0xFF) % 65536 = 0xFFFF ∧
    wrapAroundUint16 (0xFF00 + 0xFF) = 0 :=
  ⟨rfl, by decide, by decide⟩

/-- C6: for every prior (8-bit) status value and every u8 result, the
flag-update routine sets status bit 1 (Zero) iff the result is 0, sets
status bit 7 (Negative) iff bit 7 of the result is 1, and leaves each of
the other bits 0, 2, 3, 4, 5, 6 of status exactly as it was. -/
theorem updateFlags_frame (cpu : CPU) (result : Nat)
    (hs : cpu.status < 256) (hr : result < 256) :
    ((cpu.updateZeroAndNegativeFlags (some result)).status.testBit 1 = true ↔
      result = 0) ∧
    ((cpu.updateZeroAndNegativeFlags (some result)).status.testBit 7 = true ↔
      Nat.testBit result 7 = true) ∧
    (cpu.updateZeroAndNegativeFlags (some result)).status.testBit 0 = cpu.status.testBit 0 ∧
    (cpu.updateZeroAndNegativeFlags (some result)).status.testBit 2 = cpu.status.testBit 2 ∧
    (cpu.updateZeroAndNegativeFlags (some result)).status.testBit 3 = cpu.status.testBit 3 ∧
    (cpu.updateZeroAndNegativeFlags (some result)).status.testBit 4 = cpu.status.testBit 4 ∧
    (cpu.updateZeroAndNegativeFlags (some result)).status.testBit 5 = cpu.status.testBit 5 ∧
    (cpu.updateZeroAndNegativeFlags (some result)).status.testBit 6 = cpu.status.testBit 6 := by
  refine ⟨?_, ?_, ?_, ?_, ?_, ?_, ?_, ?_⟩
  · rw [updateFlags_zero_bit]
    simp
  · rw [updateFlags_neg_bit]
    simp only [jsBitwiseVal, Option.getD_some, decide_eq_true_eq]
    rw [(by norm_num : (0x80 : Nat) = 2 ^ 7), Nat.and_two_pow]
    cases h : result.testBit 7 <;> simp [h]
  · exact updateFlags_other_bit cpu (some result) 0 (by decide) (by decide) (by decide)
  · exact updateFlags_other_bit cpu (some result) 2 (by decide) (by decide) (by decide)
  · exact updateFlags_other_bit cpu (some result) 3 (by decide) (by decide) (by decide)
  · exact updateFlags_other_bit cpu (some result) 4 (by decide) (by decide) (by decide)
  · exact updateFlags_other_bit cpu (some result) 5 (by decide) (by decide) (by decide)
  · exact updateFlags_other_bit cpu (some result) 6 (by decide) (by decide) (by decide)

/-- Witness for C6 at the concrete status 0xB5 and result 5. -/
theorem updateFlags_frame_witness :
    ((statusProbe.updateZeroAndNegativeFlags (some 5)).status.testBit 1 = true ↔
      (5 : Nat) = 0) ∧
    ((statusProbe.updateZeroAndNegativeFlags (some 5)).status.testBit 7 = true ↔
      Nat.testBit 5 7 = true) ∧
    (statusProbe.updateZeroAndNegativeFlags (some 5)).status.testBit 0 = statusProbe.status.testBit 0 ∧
    (statusProbe.updateZeroAndNegativeFlags (some 5)).status.testBit 2 = statusProbe.status.testBit 2 ∧
    (statusProbe.updateZeroAndNegativeFlags (some 5)).status.testBit 3 = statusProbe.status.testBit 3 ∧
    (statusProbe.updateZeroAndNegativeFlags (some 5)).status.testBit 4 = statusProbe.status.testBit 4 ∧
    (statusProbe.updateZeroAndNegativeFlags (some 5)).status.testBit 5 = statusProbe.status.testBit 5 ∧
    (statusProbe.updateZeroAndNegativeFlags (some 5)).status.testBit 6 = statusProbe.status.testBit 6 :=
  updateFlags_frame statusProbe 5 (by decide) (by decide)

/-- C7: after `load program` followed by `reset`, the accumulator,
`register_x`, `register_y`, and status are all 0, and the program counter
is 0x8000 (loaded little-endian from the reset vector at 0xFFFC), whatever
the prior state was.  The length bound keeps the model inside the region
where `Uint8Array.set` does not throw. -/
theorem load_then_reset_initializes (cpu : CPU) (program : List Nat)
    (hlen : program.length ≤ 0x7FFF) :
    ((cpu.load program).reset).register_acc = some 0 ∧
    ((cpu.load program).reset).register_x = some 0 ∧
    ((cpu.load program).reset).register_y = some 0 ∧
    ((cpu.load program).reset).status = 0 ∧
    ((cpu.load program).reset).program_counter = 0x8000 := by
  refine ⟨rfl, rfl, rfl, rfl, ?_⟩
  show (cpu.load program).memoryReadUint16 0xFFFC = 0x8000
  simp [CPU.load, CPU.memoryWriteUint16, CPU.memoryWrite, CPU.memoryReadUint16,
    CPU.memoryRead, MEMORY_SIZE, toUint8, jsBitwiseVal,
    Function.update_same, Function.update_noteq]
  decide

/-- Witness for C7 on the three-byte program `[LDA, 5, BRK]`. -/
theorem load_then_reset_initializes_witness :
    ((CPU.new.load [0xA9, 5, 0]).reset).register_acc = some 0 ∧
    ((CPU.new.load [0xA9, 5, 0]).reset).register_x = some 0 ∧
    ((CPU.new.load [0xA9, 5, 0]).reset).register_y = some 0 ∧
    ((CPU.new.load [0xA9, 5, 0]).reset).status = 0 ∧
    ((CPU.new.load [0xA9, 5, 0]).reset).program_counter = 0x8000 :=
  load_then_reset_initializes CPU.new [0xA9, 5, 0] (by decide)

/-- C8: when the byte at the program counter is 0x00 (BRK), `run` returns
immediately and the final state is the initial state except that the
program counter advanced by exactly 1 (the opcode fetch): no register,
flag, or memory cell changes and no operand bytes are consumed. -/
theorem brk_halts_immediately (cpu : CPU) (fuel : Nat)
    (hmem : cpu.memoryRead cpu.program_counter = some Instruction.BRK) :
    CPU.run (fuel + 1) cpu =
      RunResult.halted { cpu with program_counter := cpu.program_counter + 1 } := by
  simp [CPU.run, hmem]

/-- Witness for C8 on a freshly constructed CPU (memory is zero-initialized,
so the byte at the program counter is the BRK opcode). -/
theorem brk_halts_immediately_witness :
    CPU.run (0 + 1) CPU.new =
      RunResult.halted { CPU.new with program_counter := CPU.new.program_counter + 1 } :=
  brk_halts_immediately CPU.new 0 rfl

/-- C9: when the fetched opcode byte is none of 0x00 (BRK), 0xA9 (LDA
immediate), 0xE8 (INX), or 0xAA (TAX), `run` surfaces the unimplemented
opcode error to the caller at once and executes no further instruction. -/
theorem unrecognized_opcode_faults (cpu : CPU) (op fuel : Nat)
    (hmem : cpu.memoryRead cpu.program_counter = some op)
    (hbrk : op ≠ Instruction.BRK) (hlda : op ≠ Instruction.LDA_Immediate)
    (hinx : op ≠ Instruction.INX) (htax : op ≠ Instruction.TAX) :
    CPU.run (fuel + 1) cpu =
      RunResult.unimplementedOpcode
        { cpu with program_counter := cpu.program_counter + 1 } := by
  simp [CPU.run, hmem, hbrk, hlda, hinx, htax]

/-- Witness for C9 at the unrecognized opcode byte 0xFF. -/
theorem unrecognized_opcode_faults_witness :
    CPU.run (0 + 1) badOpcodeProbe =
      RunResult.unimplementedOpcode
        { badOpcodeProbe with program_counter := badOpcodeProbe.program_counter + 1 } :=
  unrecognized_opcode_faults badOpcodeProbe 0xFF 0 rfl
    (by decide) (by decide) (by decide) (by decide)

/-- C10: after any call to the flag-update routine (through which LDA, INX,
and TAX all set their flags), status bits 1 (Zero) and 7 (Negative) are
never both set: a result of 0 has bit 7 clear. -/
theorem zero_negative_never_both_set (cpu : CPU) (result : JsVal) :
    ¬((cpu.updateZeroAndNegativeFlags result).status.testBit 1 = true ∧
      (cpu.updateZeroAndNegativeFlags result).status.testBit 7 = true) := by
  rintro ⟨h1, h7⟩
  rw [updateFlags_zero_bit] at h1
  rw [updateFlags_neg_bit] at h7
  simp only [decide_eq_true_eq] at h1 h7
  subst h1
  simp [jsBitwiseVal] at h7

end NES
